import Mathlib

/-!
Shallow embedding of the retrieval/ranking core of the
`nextjs-openai-sales-assistant` repository, together with proofs checking
the natural-language specification against it.

The embedded code lives in:
* `src/pages/api/vector-search.ts` (product search handler, token budget 1500),
* the legal vector-search handler (in `src/unnamed/part_000`, the version with
  document-name boosting and keyword augmentation, token budget 2000),
* `src/pages/api/gtm-vector-search.ts` (token budget 2000).

JavaScript numbers are modelled as rationals (`ℚ`), JS strings as Lean
`String`, nullable columns as `Option String`, and the MariaDB result sets as
Lean lists of row records whose `distance` field stands for
`VEC_DISTANCE(embedding, query_vector)` for the request's query vector.
The GPT3 tokenizer is an abstract parameter `tok : String → Nat` standing for
`tokenizer.encode(content).text.length`.
-/

namespace SalesAssistant

/-- JS `s || 'default'` for a non-nullable string column: the default is used
exactly when the string is empty (the only falsy string). -/
def jsOr (s d : String) : String := if s = "" then d else s

/-- JS `s || 'default'` for a nullable string column (`null` and `''` are
falsy). -/
def jsOrOpt (o : Option String) (d : String) : String :=
  match o with
  | none => d
  | some s => if s = "" then d else s

/-- Characters removed by JS `String.prototype.trim` (ASCII whitespace and
line terminators; the exotic Unicode space characters are not modelled). -/
def isJsWhitespace (c : Char) : Bool :=
  c = ' ' || c = '\n' || c = '\t' || c = '\r' || c = '\x0b' || c = '\x0c'

/-- JS `s.trim()`: strip whitespace from both ends. -/
def jsTrim (s : String) : String :=
  String.mk (((s.data.dropWhile isJsWhitespace).reverse.dropWhile isJsWhitespace).reverse)

/-- JS `s.replaceAll('\n', ' ')` as used on the embedding input. -/
def replaceNewlines (s : String) : String :=
  String.mk (s.data.map (fun c => if c = '\n' then ' ' else c))

/-- Case-insensitive substring test: models both JS
`haystack.toLowerCase().includes(needle.toLowerCase())` and a MariaDB
`LIKE '%needle%'` under the default case-insensitive collation. -/
def strContains (hay needle : String) : Bool :=
  decide ((needle.data.map Char.toLower) <:+: (hay.data.map Char.toLower))

/-- Substring test against a nullable column (`NULL LIKE ...` is not true). -/
def optContains (o : Option String) (needle : String) : Bool :=
  match o with
  | none => false
  | some s => strContains s needle

/-- JS `Math.round` (round half toward positive infinity). -/
def jsRound (q : ℚ) : ℤ := ⌊q + 1 / 2⌋

/-- `Math.round(sim * 100) / 100` — similarity rounded to two decimals for
the sources payload. -/
def roundTo2 (q : ℚ) : ℚ := (jsRound (q * 100) : ℚ) / 100

/-- A row of `legal_sections ⋈ legal_documents` (or the product/GTM analogue)
as seen by one request: `distance` is `VEC_DISTANCE(embedding, qv.vec)` for
this request's query vector. -/
structure Row where
  id : Nat
  docId : Nat
  sectionTitle : Option String
  content : Option String
  documentName : String
  distance : ℚ
deriving DecidableEq, Repr

/-- A retrieved candidate (`SimilarityCandidate` in the spec): a row plus the
`similarity` value selected by the SQL query. -/
structure Sect where
  id : Nat
  docId : Nat
  sectionTitle : Option String
  content : Option String
  documentName : String
  similarity : ℚ
deriving DecidableEq, Repr

/-- The `SELECT` list of the vector search: similarity is
`1 - VEC_DISTANCE(...)`. -/
def rowToSect (r : Row) : Sect :=
  { id := r.id, docId := r.docId, sectionTitle := r.sectionTitle,
    content := r.content, documentName := r.documentName,
    similarity := 1 - r.distance }

/-- `CHAR_LENGTH(content) >= minLen` (`NULL` fails the comparison). -/
def contentLenOk (c : Option String) (minLen : Nat) : Bool :=
  match c with
  | none => false
  | some s => decide (minLen ≤ s.length)

/-- The vector-search SQL (`legalSectionRows` / `productSectionRows` /
`gtmSectionRows`): keep rows with `CHAR_LENGTH(content) >= minLen` and
`(1 - VEC_DISTANCE) > threshold`, `ORDER BY VEC_DISTANCE ASC`,
`LIMIT maxResults`. -/
def vectorSearch (table : List Row) (minLen : Nat) (threshold : ℚ)
    (maxResults : Nat) : List Sect :=
  ((((table.filter
      (fun r => contentLenOk r.content minLen && decide (threshold < 1 - r.distance))).mergeSort
      (fun a b => decide (a.distance ≤ b.distance))).take maxResults).map rowToSect)

/-- One keyword's `(ls.content LIKE ? OR ls.section_title LIKE ?)`
disjunct. -/
def keywordHit (kw : String) (r : Row) : Bool :=
  optContains r.content kw || optContains r.sectionTitle kw

/-- The keyword-augmentation SQL (`keywordBoostedSections`): rows with
`CHAR_LENGTH(content) >= minLen` matching any keyword in `content` or
`section_title`, `LIMIT 10`, every row given the fixed
`0.85 AS similarity`. -/
def keywordSearch (table : List Row) (minLen : Nat) (keywords : List String) :
    List Sect :=
  (((table.filter
      (fun r => contentLenOk r.content minLen && keywords.any (fun kw => keywordHit kw r))).take 10).map
    (fun r => { rowToSect r with similarity := mkRat 85 100 }))

/-- The size-tiered boost factor:
`keyword.length > 10 ? 1.25 : keyword.length > 5 ? 1.20 : 1.15`. -/
def boostFactor (kw : String) : ℚ :=
  if 10 < kw.length then mkRat 5 4 else if 5 < kw.length then mkRat 6 5 else mkRat 23 20

/-- The document-name boost applied to a single vector candidate: the first
keyword (in list order) contained in the lowercased document name determines
the factor, and the result is clamped by `Math.min(1.0, ...)`; a candidate
whose document name matches no keyword is unchanged. -/
def applyBoost (keywords : List String) (s : Sect) : Sect :=
  match keywords.find? (fun kw => strContains s.documentName kw) with
  | none => s
  | some kw => { s with similarity := min 1 (s.similarity * boostFactor kw) }

/-- Descending-similarity comparator `(a, b) => b.similarity - a.similarity`
read as a `≤`-style boolean relation (`cmp a b ≤ 0`). -/
def simDescLe (a b : Sect) : Bool := decide (b.similarity ≤ a.similarity)

/-- The document-name boosting step over the vector candidates: only runs
when some document keyword was detected, then re-sorts by boosted similarity
descending. -/
def boostSections (keywords : List String) (sections : List Sect) : List Sect :=
  if keywords.isEmpty then sections
  else (sections.map (applyBoost keywords)).mergeSort simDescLe

/-- `keywordBoostedSections.some(ks => ks.id === s.id)` — how the merge
comparator decides that a candidate belongs to the keyword group. -/
def isKeywordId (keywordSections : List Sect) (s : Sect) : Bool :=
  keywordSections.any (fun ks => ks.id == s.id)

/-- The JS merge comparator, read as a `≤`-style boolean relation
(`cmp a b ≤ 0`): keyword-group candidates sort before vector-only ones, and
inside a group the order is by similarity descending. -/
def mergeLe (keywordSections : List Sect) (a b : Sect) : Bool :=
  (isKeywordId keywordSections a && !isKeywordId keywordSections b) ||
    (isKeywordId keywordSections a == isKeywordId keywordSections b &&
      decide (b.similarity ≤ a.similarity))

/-- The merge of keyword-boosted sections with the vector results
(`legalSections` merge block): when keyword results exist, drop keyword rows
whose id is already among the vector results, prepend the remaining ones,
sort with the keyword-first comparator (JS `Array.prototype.sort` is stable,
modelled by `List.mergeSort`), and truncate to `matchCount + 5`. -/
def mergeSections (matchCount : Nat) (keywordSections vectorSections : List Sect) :
    List Sect :=
  if keywordSections.isEmpty then vectorSections
  else
    let existingIds := vectorSections.map (fun s => s.id)
    let newSections := keywordSections.filter (fun s => !existingIds.contains s.id)
    (((newSections ++ vectorSections).mergeSort (mergeLe keywordSections)).take
      (matchCount + 5))

/-- The merged ordering as the specification describes it: keyword-sourced
candidates (minus the deduplicated ones) first in discovery order, then the
vector candidates sorted by similarity descending, truncated to
`matchCount + 5`. Written from the spec's words, to be compared with
`mergeSections` above. -/
def specMergeOrder (matchCount : Nat) (keywordSections vectorSections : List Sect) :
    List Sect :=
  if keywordSections.isEmpty then vectorSections
  else
    (((keywordSections.filter
        (fun s => !(vectorSections.map (fun v => v.id)).contains s.id)) ++
      vectorSections.mergeSort simDescLe).take (matchCount + 5))

/-- `tokenizer.encode(content).text.length` for one candidate's content
(`null` content is replaced by `''` before encoding). -/
def sectTokens (tok : String → Nat) (s : Sect) : Nat := tok (s.content.getD "")

/-- The greedy packing loop shared by the three handlers, with the running
`tokenCount` made explicit. Returns the accumulated `contextText` together
with the number of candidates whose block was appended: per iteration the
current candidate's token count is added to the running count first, and the
loop `break`s — skipping the append — once the running count reaches the
budget. -/
def packLoop (tok : String → Nat) (budget : Nat) (fmt : Sect → String) :
    List Sect → Nat → String × Nat
  | [], _ => ("", 0)
  | s :: rest, tokenCount =>
    let tokenCount' := tokenCount + sectTokens tok s
    if budget ≤ tokenCount' then ("", 0)
    else
      let tail := packLoop tok budget fmt rest tokenCount'
      (fmt s ++ tail.1, tail.2 + 1)

/-- `ContextPacker.pack`: run the packing loop from a zero token count. -/
def packContext (tok : String → Nat) (budget : Nat) (fmt : Sect → String)
    (sections : List Sect) : String × Nat :=
  packLoop tok budget fmt sections 0

/-- The per-candidate block of the product handler:
``Product: ${productName}\nSection: ${sectionTitle}\n${content.trim()}\n---\n``. -/
def fmtProduct (s : Sect) : String :=
  "Product: " ++ jsOr s.documentName "Product" ++ "\nSection: " ++
    jsOrOpt s.sectionTitle "Section" ++ "\n" ++ jsTrim (s.content.getD "") ++ "\n---\n"

/-- The per-candidate block of the legal handler, which also interpolates the
rounded similarity percentage. -/
def fmtLegal (s : Sect) : String :=
  "[DOCUMENT: " ++ jsOr s.documentName "Document" ++ "] (Relevance: " ++
    toString (jsRound (s.similarity * 100)) ++ "%)\nSECTION: " ++
    jsOrOpt s.sectionTitle "Section" ++ "\n\n" ++ jsTrim (s.content.getD "") ++
    "\n\n---\n\n"

/-- One entry of the `__SOURCES__` payload. -/
structure SourceEntry where
  id : Nat
  documentName : String
  sectionTitle : Option String
  similarity : ℚ
deriving DecidableEq, Repr

def mkSourceEntry (s : Sect) : SourceEntry :=
  { id := s.id, documentName := s.documentName, sectionTitle := s.sectionTitle,
    similarity := roundTo2 s.similarity }

/-- The `usedSections` computation of all three handlers:
`sections.slice(0, sections.length).map(...)` — note that the slice spans the
whole retrieved list, independent of how many candidates the packing loop
actually included. -/
def usedSections (sections : List Sect) : List SourceEntry :=
  ((sections.take sections.length).map mkSourceEntry)

/-- Modelled from the spec: the error taxonomy of `@/lib/errors`, whose source
file is not part of the provided sources (only its importers are). The spec
describes two distinct exception classes — `UserError` for invalid
caller-supplied input (carrying a machine-readable category) and
`ApplicationError` for system faults — and the handlers dispatch on
`instanceof`. -/
inductive ThrownError where
  | userError (msg : String) (flagged : Option Bool) (categories : Option (List String))
  | applicationError (msg : String)
deriving DecidableEq, Repr

/-- The request body `{ prompt }`; `prompt` is absent or a string
(`none` stands for a missing/undefined field). -/
structure RequestData where
  prompt : Option String
deriving DecidableEq, Repr

/-- JS falsiness of the `query` value: `undefined`/`null` and the empty
string are falsy. -/
def strFalsy (o : Option String) : Bool :=
  match o with
  | none => true
  | some s => s == ""

/-- Everything external the product handler consumes in one request: config
presence, the parsed body, the moderation and embedding services (as
functions of the input actually sent to them), the joined
`product_sections ⋈ products` table with per-row distances to this request's
query vector, the tokenizer, and whether the chat-completion call succeeds. -/
structure Env where
  openAiKeySet : Bool
  dbConfigSet : Bool
  method : String
  body : Option RequestData
  moderationFlagged : String → Bool
  moderationCategories : String → List String
  embeddingStatus : String → Nat
  table : List Row
  tok : String → Nat
  generationOk : Bool

/-- The observable outcome of one request to the product handler: the HTTP
status, the JSON error payload (message plus the `data` of a `UserError`),
which external effects ran, and the success payload. -/
structure Outcome where
  status : Nat
  errorMsg : Option String := none
  errorFlagged : Option Bool := none
  errorCategories : Option (List String) := none
  moderationInput : Option String := none
  embeddingInput : Option String := none
  vectorSearchRan : Bool := false
  generationRan : Bool := false
  contextText : Option String := none
  sources : Option (List SourceEntry) := none

/-- The `catch` block of the handlers: a `UserError` is surfaced with status
400 together with its message and `data`; an `ApplicationError` is logged and
surfaced as an opaque 500 whose body never contains the internal message.
The `modIn`/`embIn`/`searched` arguments carry the effect trace accumulated
before the throw. -/
def throwOutcome (e : ThrownError) (modIn embIn : Option String)
    (searched : Bool) : Outcome :=
  match e with
  | .userError msg fl cats =>
    { status := 400, errorMsg := some msg, errorFlagged := fl,
      errorCategories := cats, moderationInput := modIn,
      embeddingInput := embIn, vectorSearchRan := searched }
  | .applicationError _ =>
    { status := 500, errorMsg := some "There was an error processing your request",
      moderationInput := modIn, embeddingInput := embIn,
      vectorSearchRan := searched }

/-- The product handler of `src/pages/api/vector-search.ts`, as a function of
its request-scoped environment. Control flow follows the source: config
checks (`ApplicationError` → caught → opaque 500), method check (405), body
and query validation (`UserError` → 400 with the error's message and data),
moderation + embedding launched with the trimmed query, flagged moderation
(`UserError` with `{flagged, categories}` → 400) checked before the embedding
status (`ApplicationError` → 500), then the vector search, the packing loop
with budget 1500, the generation call, and the `__SOURCES__` payload. -/
def productHandler (env : Env) : Outcome :=
  if !env.openAiKeySet then
    throwOutcome (.applicationError "Missing environment variable OPENAI_KEY") none none false
  else if !env.dbConfigSet then
    throwOutcome (.applicationError "Missing database environment variables") none none false
  else if env.method != "POST" then { status := 405, errorMsg := some "Method not allowed" }
  else
    match env.body with
    | none => throwOutcome (.userError "Missing request data" none none) none none false
    | some rd =>
      if strFalsy rd.prompt then
        throwOutcome (.userError "Missing query in request data" none none) none none false
      else
        let sanitizedQuery := jsTrim (rd.prompt.getD "")
        let embeddingInput := replaceNewlines sanitizedQuery
        if env.moderationFlagged sanitizedQuery then
          throwOutcome
            (.userError "Flagged content" (some true)
              (some (env.moderationCategories sanitizedQuery)))
            (some sanitizedQuery) (some embeddingInput) false
        else if env.embeddingStatus embeddingInput != 200 then
          throwOutcome (.applicationError "Failed to create embedding for question")
            (some sanitizedQuery) (some embeddingInput) false
        else
          let sections := vectorSearch env.table 50 (mkRat 78 100) 10
          let packed := packContext env.tok 1500 fmtProduct sections
          if !env.generationOk then
            throwOutcome (.applicationError "Failed to generate completion")
              (some sanitizedQuery) (some embeddingInput) true
          else
            { status := 200,
              moderationInput := some sanitizedQuery,
              embeddingInput := some embeddingInput,
              vectorSearchRan := true, generationRan := true,
              contextText := some packed.1,
              sources := some (usedSections sections) }

/-- Concatenation of the formatted blocks, in order (what `contextText`
accumulates). -/
def joinStrings : List String → String
  | [] => ""
  | a :: l => a ++ joinStrings l

/-- A tokenizer stand-in for concrete counterexamples: a thousand tokens per
character, so that any non-empty content overflows every budget in play. -/
def bigTok : String → Nat := fun s => 1000 * s.length

/-- Two retrieved candidates whose first content alone overflows the
2000-token budget, so the packing loop includes nothing. -/
def c1Sections : List Sect :=
  [{ id := 1, docId := 1, sectionTitle := some "T1", content := some "alpha",
     documentName := "Doc", similarity := mkRat 9 10 },
   { id := 2, docId := 1, sectionTitle := some "T2", content := some "beta",
     documentName := "Doc", similarity := mkRat 4 5 }]

/-- A candidate from a document whose name matches the "business source"
alias (but not the contiguous "bsl" alias). -/
def exBoostSection : Sect :=
  { id := 3, docId := 2, sectionTitle := none, content := some "c",
    documentName := "MariaDB Business Source License", similarity := mkRat 4 5 }

/-- The alias list pushed for a BSL query, in source order. -/
def bslKeywords : List String := ["bsl", "business source", "business source license"]

/-- A row passing the length and similarity filters of the legal vector
search (content of 52 characters, distance 0.1 ⇒ similarity 0.9). -/
def c7Row : Row :=
  { id := 1, docId := 1, sectionTitle := some "T",
    content := some "This content is definitely longer than fifty chars.",
    documentName := "Doc", distance := mkRat 1 10 }

/-- A small sections table: `c7Row` plus a row whose content is too short. -/
def c7Table : List Row :=
  [c7Row,
   { id := 2, docId := 1, sectionTitle := none, content := some "short",
     documentName := "Doc", distance := mkRat 1 5 }]

/-- A vector result: id 1 with genuine similarity 0.95. -/
def exV : List Sect :=
  [{ id := 1, docId := 1, sectionTitle := some "2.1", content := some "v",
     documentName := "Subscription Agreement", similarity := mkRat 19 20 }]

/-- Keyword results in discovery order: id 2 first, then id 1 (a duplicate of
the vector result), both carrying the synthetic similarity 0.85. -/
def exK : List Sect :=
  [{ id := 2, docId := 1, sectionTitle := some "4.4", content := some "k2",
     documentName := "Subscription Agreement", similarity := mkRat 85 100 },
   { id := 1, docId := 1, sectionTitle := some "2.1", content := some "k1",
     documentName := "Subscription Agreement", similarity := mkRat 85 100 }]

/-- A passage (Scenario B) whose content holds the exact phrase "must
promptly notify" but whose vector similarity is only 0.60 (distance 0.40),
below the 0.70 legal threshold. -/
def c4Row : Row :=
  { id := 7, docId := 3, sectionTitle := some "4.4 Reporting",
    content := some "The Customer must promptly notify MariaDB if usage exceeds the licensed quantity.",
    documentName := "Subscription Agreement", distance := mkRat 2 5 }

/-- The keyword list searched for Scenario B. -/
def c4Keywords : List String := ["must promptly notify"]

/-- A one-row legal sections table containing only `c4Row`. -/
def c4Table : List Row := [c4Row]

/-- A fully-configured request whose query the moderation endpoint flags. -/
def envFlagged : Env :=
  { openAiKeySet := true, dbConfigSet := true, method := "POST",
    body := some { prompt := some "bad query" },
    moderationFlagged := fun _ => true,
    moderationCategories := fun _ => ["violence"],
    embeddingStatus := fun _ => 200,
    table := [], tok := fun s => s.length, generationOk := true }

/-- A fully-configured request that passes moderation but whose sections
table is empty, so the vector search returns no candidates. -/
def envEmpty : Env :=
  { openAiKeySet := true, dbConfigSet := true, method := "POST",
    body := some { prompt := some "anything" },
    moderationFlagged := fun _ => false,
    moderationCategories := fun _ => [],
    embeddingStatus := fun _ => 200,
    table := [], tok := fun s => s.length, generationOk := true }

/-- A fully-configured request whose query is three spaces (truthy in JS but
trimming to the empty string). -/
def envWhitespace : Env :=
  { openAiKeySet := true, dbConfigSet := true, method := "POST",
    body := some { prompt := some "   " },
    moderationFlagged := fun _ => false,
    moderationCategories := fun _ => [],
    embeddingStatus := fun _ => 200,
    table := [], tok := fun s => s.length, generationOk := true }

/-! ## Theorems -/

/-- Invariant of the packing loop, with the running token count explicit: the
accumulated text is the concatenation of the formatted blocks of the included
head of the list, the running count stays strictly below the budget, and if
the loop stopped before the end of the list then including one more candidate
would reach the budget. -/
theorem packLoop_invariant (tok : String → Nat) (budget : Nat) (fmt : Sect → String)
    (sections : List Sect) :
    ∀ tc : Nat, tc < budget →
      (packLoop tok budget fmt sections tc).1 =
          joinStrings ((sections.take (packLoop tok budget fmt sections tc).2).map fmt) ∧
        tc + ((sections.take (packLoop tok budget fmt sections tc).2).map
            (sectTokens tok)).sum < budget ∧
        ((packLoop tok budget fmt sections tc).2 < sections.length →
          budget ≤ tc + ((sections.take ((packLoop tok budget fmt sections tc).2 + 1)).map
            (sectTokens tok)).sum) := by
  induction sections with
  | nil =>
    intro tc h
    refine ⟨rfl, by simpa using h, ?_⟩
    intro hlt
    simp [packLoop] at hlt
  | cons s rest ih =>
    intro tc h
    by_cases hb : budget ≤ tc + sectTokens tok s
    · simp only [packLoop, if_pos hb]
      refine ⟨rfl, by simpa using h, ?_⟩
      intro _
      simpa using hb
    · have hb' : tc + sectTokens tok s < budget := Nat.lt_of_not_le hb
      obtain ⟨e1, e2, e3⟩ := ih (tc + sectTokens tok s) hb'
      simp only [packLoop, if_neg hb]
      refine ⟨?_, ?_, ?_⟩
      · simp only [List.take_succ_cons, List.map_cons, joinStrings, e1]
      · simp only [List.take_succ_cons, List.map_cons, List.sum_cons]
        omega
      · intro hlt
        simp only [List.length_cons, Nat.add_lt_add_iff_right] at hlt
        have := e3 hlt
        simp only [List.take_succ_cons, List.map_cons, List.sum_cons]
        omega

/-- C2: the packer iterates candidates in rank order accumulating
tokenizer-counted content lengths, includes exactly a leading portion of the
candidate list, stops (excluding the current candidate entirely) as soon as
the running count would reach or exceed the budget — 1500 for the product
handler, 2000 for the legal/GTM handlers — and therefore the cumulative
tokenized length of the included passages never reaches the budget. -/
theorem contextPacker_budget_and_rank_order (tok : String → Nat) (sections : List Sect) :
    (((sections.take (packContext tok 1500 fmtProduct sections).2).map
        (sectTokens tok)).sum < 1500 ∧
      (packContext tok 1500 fmtProduct sections).1 =
        joinStrings ((sections.take (packContext tok 1500 fmtProduct sections).2).map
          fmtProduct) ∧
      ((packContext tok 1500 fmtProduct sections).2 < sections.length →
        1500 ≤ ((sections.take ((packContext tok 1500 fmtProduct sections).2 + 1)).map
          (sectTokens tok)).sum)) ∧
    (((sections.take (packContext tok 2000 fmtLegal sections).2).map
        (sectTokens tok)).sum < 2000 ∧
      (packContext tok 2000 fmtLegal sections).1 =
        joinStrings ((sections.take (packContext tok 2000 fmtLegal sections).2).map
          fmtLegal) ∧
      ((packContext tok 2000 fmtLegal sections).2 < sections.length →
        2000 ≤ ((sections.take ((packContext tok 2000 fmtLegal sections).2 + 1)).map
          (sectTokens tok)).sum)) := by
  obtain ⟨p1, p2, p3⟩ :=
    packLoop_invariant tok 1500 fmtProduct sections 0 (by omega)
  obtain ⟨q1, q2, q3⟩ :=
    packLoop_invariant tok 2000 fmtLegal sections 0 (by omega)
  refine ⟨⟨by simpa using p2, p1, ?_⟩, ⟨by simpa using q2, q1, ?_⟩⟩
  · intro hlt
    simpa using p3 hlt
  · intro hlt
    simpa using q3 hlt

/-- Witness for C2 at a concrete tokenizer and candidate list. -/
theorem contextPacker_budget_and_rank_order_witness :
    ((c1Sections.take (packContext bigTok 1500 fmtProduct c1Sections).2).map
        (sectTokens bigTok)).sum < 1500 ∧
      ((c1Sections.take (packContext bigTok 2000 fmtLegal c1Sections).2).map
        (sectTokens bigTok)).sum < 2000 :=
  ⟨(contextPacker_budget_and_rank_order bigTok c1Sections).1.1,
    (contextPacker_budget_and_rank_order bigTok c1Sections).2.1⟩

/-- C1 (code bug): the sources payload is `sections.slice(0, sections.length)`
— the whole retrieved candidate list — not the prefix the packing loop
actually included: on `c1Sections` (whose first content alone overflows the
2000-token budget) the packing loop includes zero candidates while the
payload still lists both, contradicting the comment above the code
(`Only include sections that were actually used in the context`). -/
theorem sources_payload_includes_unpacked_sections :
    (packContext bigTok 2000 fmtLegal c1Sections).2 = 0 ∧
      (usedSections c1Sections).length = 2 ∧
      usedSections c1Sections ≠
        (c1Sections.take (packContext bigTok 2000 fmtLegal c1Sections).2).map
          mkSourceEntry := by
  refine ⟨rfl, rfl, ?_⟩
  decide

/-- `contentLenOk` unfolded: the column is non-`NULL` and long enough. -/
theorem contentLenOk_iff (c : Option String) (m : Nat) :
    contentLenOk c m = true ↔ ∃ s, c = some s ∧ m ≤ s.length := by
  cases c <;> simp [contentLenOk]

/-- C5: a vector candidate whose document name contains a detected alias gets
similarity `min 1 (similarity × f)`, where `f` is 1.25 for aliases longer
than 10 characters, 1.20 for longer than 5, else 1.15; only the first
matching alias in keyword-list order (the `find?`) determines the factor, so
boosts never stack, and the clamped result never exceeds 1. -/
theorem documentName_boost_formula (keywords : List String) (s : Sect) (kw : String)
    (h : keywords.find? (fun k => strContains s.documentName k) = some kw) :
    (applyBoost keywords s).similarity = min 1 (s.similarity * boostFactor kw) ∧
      boostFactor kw =
        (if 10 < kw.length then 5 / 4 else if 5 < kw.length then (6 / 5 : ℚ) else 23 / 20) ∧
      (applyBoost keywords s).similarity ≤ 1 := by
  unfold applyBoost
  rw [h]
  refine ⟨rfl, ?_, min_le_left _ _⟩
  simp only [boostFactor]
  split_ifs <;> norm_num

/-- Witness for C5: on a "business source" match of 15 characters the factor
is 1.25 and `0.8 × 1.25` clamps to exactly 1. -/
theorem documentName_boost_formula_witness :
    bslKeywords.find? (fun k => strContains exBoostSection.documentName k) =
        some "business source" ∧
      (applyBoost bslKeywords exBoostSection).similarity = 1 := by
  refine ⟨by decide, ?_⟩
  rw [(documentName_boost_formula bslKeywords exBoostSection "business source"
    (by decide)).1]
  have hl : ("business source").length = 15 := rfl
  norm_num [exBoostSection, boostFactor, hl]

/-- C7: every result of the vector search has similarity strictly above the
threshold (boundary-equal rows are excluded) and non-`NULL` content of at
least the minimum length; there are at most `maxResults` results; and they
are ordered descending by similarity (ascending by distance). -/
theorem vectorSearch_filter_order_limit (table : List Row) (minLen : Nat)
    (threshold : ℚ) (maxResults : Nat) :
    (∀ s ∈ vectorSearch table minLen threshold maxResults,
        threshold < s.similarity ∧ ∃ c, s.content = some c ∧ minLen ≤ c.length) ∧
      (vectorSearch table minLen threshold maxResults).length ≤ maxResults ∧
      (vectorSearch table minLen threshold maxResults).Pairwise
        (fun a b => b.similarity ≤ a.similarity) := by
  refine ⟨?_, ?_, ?_⟩
  · intro s hs
    obtain ⟨r, hr, rfl⟩ := List.mem_map.mp hs
    have hrF := (List.mergeSort_perm _ _).mem_iff.mp (List.mem_of_mem_take hr)
    obtain ⟨-, hpred⟩ := List.mem_filter.mp hrF
    obtain ⟨hlen, hsim⟩ := Bool.and_eq_true _ _ ▸ hpred
    refine ⟨by simpa [rowToSect] using of_decide_eq_true hsim, ?_⟩
    simpa [rowToSect] using (contentLenOk_iff r.content minLen).mp hlen
  · rw [vectorSearch, List.length_map]
    exact List.length_take_le _ _
  · have hs : ((table.filter
        (fun r => contentLenOk r.content minLen && decide (threshold < 1 - r.distance))).mergeSort
        (fun a b => decide (a.distance ≤ b.distance))).Pairwise
        (fun a b => decide (a.distance ≤ b.distance) = true) :=
      List.sorted_mergeSort
        (fun a b c hab hbc => by
          simp only [decide_eq_true_eq] at *
          exact le_trans hab hbc)
        (fun a b => by
          simp only [Bool.or_eq_true, decide_eq_true_eq]
          exact le_total _ _)
        (table.filter
          (fun r => contentLenOk r.content minLen && decide (threshold < 1 - r.distance)))
    have ht := hs.sublist (List.take_sublist maxResults _)
    rw [vectorSearch, List.pairwise_map]
    exact ht.imp (fun h => by
      simp only [decide_eq_true_eq] at h
      simp only [rowToSect]
      linarith)

/-- Witness for C7 on a two-row table with the legal threshold 0.70. -/
theorem vectorSearch_filter_order_limit_witness :
    rowToSect c7Row ∈ vectorSearch c7Table 50 (mkRat 70 100) 15 ∧
      (mkRat 70 100 : ℚ) < (rowToSect c7Row).similarity ∧
      (vectorSearch c7Table 50 (mkRat 70 100) 15).length ≤ 15 := by
  have hb1 : decide (50 ≤ ("This content is definitely longer than fifty chars.").length) = true := by
    decide
  have hb2 : decide ((mkRat 70 100 : ℚ) < 1 - mkRat 1 10) = true := by
    simp only [decide_eq_true_eq]
    norm_num
  have hb3 : decide (50 ≤ ("short").length) = false := by decide
  have hv : vectorSearch c7Table 50 (mkRat 70 100) 15 = [rowToSect c7Row] := by
    simp [vectorSearch, c7Table, c7Row, List.filter, contentLenOk, hb1, hb2, hb3,
      List.mergeSort]
  have hm : rowToSect c7Row ∈ vectorSearch c7Table 50 (mkRat 70 100) 15 := by
    rw [hv]; exact List.mem_singleton_self _
  exact ⟨hm,
    ((vectorSearch_filter_order_limit c7Table 50 (mkRat 70 100) 15).1 _ hm).1,
    (vectorSearch_filter_order_limit c7Table 50 (mkRat 70 100) 15).2.1⟩

/-- C6: under the well-formedness of SQL result sets (distinct primary-key
ids within each input list), the merge never returns two candidates with the
same passage id, and any returned candidate whose id occurs among the vector
results is the vector entry itself — the keyword duplicate is discarded. -/
theorem merge_dedup_vector_wins (mc : Nat) (K V : List Sect)
    (hK : (K.map (fun s => s.id)).Nodup) (hV : (V.map (fun s => s.id)).Nodup) :
    ((mergeSections mc K V).map (fun s => s.id)).Nodup ∧
      ∀ x ∈ mergeSections mc K V, x.id ∈ V.map (fun s => s.id) → x ∈ V := by
  by_cases hKe : K.isEmpty = true
  · simp only [mergeSections, if_pos hKe]
    exact ⟨hV, fun x hx _ => hx⟩
  · simp only [mergeSections, if_neg hKe]
    set newS := K.filter (fun s => !(V.map (fun v => v.id)).contains s.id) with hnewS
    have hperm : List.Perm ((newS ++ V).mergeSort (mergeLe K)) (newS ++ V) :=
      List.mergeSort_perm _ _
    have hmergedNodup : (((newS ++ V)).map (fun s => s.id)).Nodup := by
      rw [List.map_append, List.nodup_append]
      refine ⟨((List.filter_sublist _).map _).nodup hK, hV, ?_⟩
      intro a ha hb
      obtain ⟨s, hs, rfl⟩ := List.mem_map.mp ha
      obtain ⟨-, hpred⟩ := List.mem_filter.mp hs
      simp only [Bool.not_eq_true'] at hpred
      exact absurd hb (by simpa using hpred)
    refine ⟨?_, ?_⟩
    · have hsortNodup : ((((newS ++ V)).mergeSort (mergeLe K)).map (fun s => s.id)).Nodup :=
        ((hperm.map _).nodup_iff).mpr hmergedNodup
      exact ((List.take_sublist _ _).map _).nodup hsortNodup
    · intro x hx hid
      have hx' : x ∈ newS ++ V := hperm.mem_iff.mp (List.mem_of_mem_take hx)
      rcases List.mem_append.mp hx' with hxn | hxv
      · obtain ⟨-, hpred⟩ := List.mem_filter.mp hxn
        simp only [Bool.not_eq_true'] at hpred
        exact absurd hid (by simpa using hpred)
      · exact hxv

/-- Witness for C6 on the concrete keyword/vector lists sharing id 1. -/
theorem merge_dedup_vector_wins_witness :
    ((exK.map (fun s => s.id)).Nodup ∧ (exV.map (fun s => s.id)).Nodup) ∧
      ((mergeSections 15 exK exV).map (fun s => s.id)).Nodup :=
  ⟨⟨by decide, by decide⟩,
    (merge_dedup_vector_wins 15 exK exV (by decide) (by decide)).1⟩

/-- The merge comparator is transitive. -/
theorem mergeLe_trans (K : List Sect) (a b c : Sect) (hab : mergeLe K a b = true)
    (hbc : mergeLe K b c = true) : mergeLe K a c = true := by
  cases hKa : isKeywordId K a <;> cases hKb : isKeywordId K b <;>
    cases hKc : isKeywordId K c <;>
    simp_all only [mergeLe, Bool.or_eq_true, Bool.and_eq_true, Bool.not_eq_true',
      beq_iff_eq, decide_eq_true_eq, Bool.true_and, Bool.false_and, Bool.and_true,
      Bool.and_false, Bool.or_false, Bool.false_or, Bool.not_false, Bool.not_true,
      Bool.true_eq_false, Bool.false_eq_true, or_false, false_or, and_true, true_and,
      and_false, false_and, or_true, true_or]
  · exact le_trans hbc hab
  · exact le_trans hbc hab

/-- The merge comparator is total. -/
theorem mergeLe_total (K : List Sect) (a b : Sect) :
    (mergeLe K a b || mergeLe K b a) = true := by
  cases hKa : isKeywordId K a <;> cases hKb : isKeywordId K b <;>
    simp [mergeLe, hKa, hKb] <;> exact le_total _ _

/-- In a list sorted so that candidates satisfying `p` come first, the
`p`-filtered part is an initial segment of length `countP p`. -/
theorem filter_eq_take_countP {α : Type} (p : α → Bool) :
    ∀ l : List α, l.Pairwise (fun a b => p b = true → p a = true) →
      l.filter p = l.take (l.countP p)
  | [], _ => rfl
  | a :: t, hp => by
    obtain ⟨hhead, htail⟩ := List.pairwise_cons.mp hp
    cases hpa : p a
    · have hnone : ∀ x ∈ t, p x = false := by
        intro x hx
        cases hpx : p x
        · rfl
        · exact absurd (hhead x hx hpx) (by simp [hpa])
      have hfil : t.filter p = [] := by
        rw [List.filter_eq_nil_iff]
        intro x hx
        simp [hnone x hx]
      have hcnt : t.countP p = 0 := by
        rw [List.countP_eq_zero]
        intro x hx
        simp [hnone x hx]
      simp [List.filter_cons, List.countP_cons, hpa, hfil, hcnt]
    · simp only [List.filter_cons, hpa, if_true, List.countP_cons, hpa]
      rw [filter_eq_take_countP p t htail]
      simp

/-- A sublist of `p`-satisfying elements of a `p`-first sorted list survives
truncation to any length at least `countP p`. -/
theorem sublist_take_of_flagged {α : Type} {c l : List α} (p : α → Bool) (n : Nat)
    (hcl : List.Sublist c l) (hc : ∀ x ∈ c, p x = true)
    (hl : l.Pairwise (fun a b => p b = true → p a = true))
    (hn : l.countP p ≤ n) : List.Sublist c (l.take n) := by
  have h1 : c.filter p = c := List.filter_eq_self.mpr hc
  have h2 : List.Sublist c (l.filter p) := by
    have := hcl.filter p
    rwa [h1] at this
  rw [filter_eq_take_countP p l hl] at h2
  have h3 : l.take (l.countP p) = (l.take n).take (l.countP p) := by
    rw [List.take_take, min_eq_left hn]
  rw [h3] at h2
  exact h2.trans (List.take_sublist _ _)

/-- With distinct ids inside each input list, at most `K.length` entries of
the merged (pre-sort) list belong to the keyword group. -/
theorem countP_keyword_le (K V : List Sect)
    (hK : (K.map (fun s => s.id)).Nodup) (hV : (V.map (fun s => s.id)).Nodup) :
    ((K.filter (fun s => !(V.map (fun v => v.id)).contains s.id) ++ V).countP
        (fun s => isKeywordId K s)) ≤ K.length := by
  set newS := K.filter (fun s => !(V.map (fun v => v.id)).contains s.id) with hnewS
  rw [List.countP_append]
  have hcn : newS.countP (fun s => isKeywordId K s) = newS.length := by
    rw [List.countP_eq_length]
    intro x hx
    have hxK : x ∈ K := List.mem_of_mem_filter hx
    simp only [isKeywordId, List.any_eq_true]
    exact ⟨x, hxK, by simp⟩
  have hcv : V.countP (fun s => isKeywordId K s) =
      (V.filter (fun s => isKeywordId K s)).length := List.countP_eq_length_filter _ _
  rw [hcn, hcv]
  have hA : (newS.map (fun s => s.id)).Nodup :=
    ((List.filter_sublist _).map _).nodup hK
  have hB : ((V.filter (fun s => isKeywordId K s)).map (fun s => s.id)).Nodup :=
    ((List.filter_sublist _).map _).nodup hV
  have hAB : ((newS.map (fun s => s.id)) ++
      ((V.filter (fun s => isKeywordId K s)).map (fun s => s.id))).Nodup := by
    rw [List.nodup_append]
    refine ⟨hA, hB, ?_⟩
    intro a ha hb
    obtain ⟨s, hs, rfl⟩ := List.mem_map.mp ha
    obtain ⟨-, hpred⟩ := List.mem_filter.mp hs
    simp only [Bool.not_eq_true'] at hpred
    obtain ⟨v, hv, hvid⟩ := List.mem_map.mp hb
    have hvV : v ∈ V := List.mem_of_mem_filter hv
    have : s.id ∈ V.map (fun v => v.id) := hvid ▸ List.mem_map_of_mem _ hvV
    exact absurd this (by simpa using hpred)
  have hsubset : ((newS.map (fun s => s.id)) ++
      ((V.filter (fun s => isKeywordId K s)).map (fun s => s.id))) ⊆
      K.map (fun s => s.id) := by
    intro a ha
    rcases List.mem_append.mp ha with h | h
    · obtain ⟨s, hs, rfl⟩ := List.mem_map.mp h
      exact List.mem_map_of_mem _ (List.mem_of_mem_filter hs)
    · obtain ⟨v, hv, rfl⟩ := List.mem_map.mp h
      obtain ⟨-, hpred⟩ := List.mem_filter.mp hv
      simp only [isKeywordId, List.any_eq_true, beq_iff_eq] at hpred
      obtain ⟨ks, hks, hid⟩ := hpred
      exact hid ▸ List.mem_map_of_mem _ hks
  have := (hAB.subperm hsubset).length_le
  simp only [List.length_append, List.length_map] at this
  simpa using this

/-- The merge comparator puts the keyword group first. -/
theorem mergeLe_flag (K : List Sect) (a b : Sect) (h : mergeLe K a b = true)
    (hb : isKeywordId K b = true) : isKeywordId K a = true := by
  cases hKa : isKeywordId K a <;> simp_all [mergeLe]

/-- Inside one group the merge comparator is descending similarity. -/
theorem mergeLe_sim (K : List Sect) (a b : Sect) (h : mergeLe K a b = true)
    (heq : isKeywordId K a = isKeywordId K b) : b.similarity ≤ a.similarity := by
  cases hKa : isKeywordId K a <;> cases hKb : isKeywordId K b <;> simp_all [mergeLe]

/-- C3 (counterexample): the claimed merged ordering — deduplicated
keyword-sourced candidates first in discovery order, then vector candidates
by similarity descending — fails on `exK`/`exV`: the vector entry with id 1
is also flagged as keyword-group by the comparator (its id occurs in the
keyword list), so it is sorted above the genuine keyword candidate with id 2
instead of after it. -/
theorem mergeOrder_claim_counterexample :
    mergeSections 15 exK exV ≠ specMergeOrder 15 exK exV := by
  have c1 : decide ((mkRat 19 20 : ℚ) ≤ mkRat 85 100) = false := by decide
  have c2 : decide ((mkRat 85 100 : ℚ) ≤ mkRat 19 20) = true := by decide
  have h1 : mergeSections 15 exK exV =
      [{ id := 1, docId := 1, sectionTitle := some "2.1", content := some "v",
         documentName := "Subscription Agreement", similarity := mkRat 19 20 },
       { id := 2, docId := 1, sectionTitle := some "4.4", content := some "k2",
         documentName := "Subscription Agreement", similarity := mkRat 85 100 }] := by
    simp [mergeSections, exK, exV, mergeLe, isKeywordId, List.mergeSort, List.merge,
      c1, c2]
  have h2 : specMergeOrder 15 exK exV =
      [{ id := 2, docId := 1, sectionTitle := some "4.4", content := some "k2",
         documentName := "Subscription Agreement", similarity := mkRat 85 100 },
       { id := 1, docId := 1, sectionTitle := some "2.1", content := some "v",
         documentName := "Subscription Agreement", similarity := mkRat 19 20 }] := by
    simp [specMergeOrder, exK, exV, simDescLe, List.mergeSort]
  rw [h1, h2]
  simp

/-- C3 (amended): under distinct ids per input list, at most `mc + 5` merged
candidates are returned; every candidate whose id occurs among the keyword
results (which includes vector entries deduplicated against a keyword row)
precedes every candidate whose id does not; within a group the order is by
similarity descending; and the keyword candidates that survived
deduplication — all carrying the equal synthetic similarity — appear in
their original discovery order (as a sublist of the output). -/
theorem mergeOrder_amended (mc : Nat) (K V : List Sect)
    (hne : K.isEmpty = false)
    (hKid : (K.map (fun s => s.id)).Nodup)
    (hVid : (V.map (fun s => s.id)).Nodup)
    (hKlen : K.length ≤ mc + 5)
    (hsim : ∀ s ∈ K, s.similarity = mkRat 85 100) :
    (mergeSections mc K V).length ≤ mc + 5 ∧
      (mergeSections mc K V).Pairwise
        (fun a b => isKeywordId K b = true → isKeywordId K a = true) ∧
      (mergeSections mc K V).Pairwise
        (fun a b => isKeywordId K a = isKeywordId K b → b.similarity ≤ a.similarity) ∧
      List.Sublist (K.filter (fun s => !(V.map (fun v => v.id)).contains s.id))
        (mergeSections mc K V) := by
  have hif : mergeSections mc K V =
      ((K.filter (fun s => !(V.map (fun v => v.id)).contains s.id) ++ V).mergeSort
        (mergeLe K)).take (mc + 5) := by
    simp [mergeSections, hne]
  set newS := K.filter (fun s => !(V.map (fun v => v.id)).contains s.id) with hnewS
  have hsorted : ((newS ++ V).mergeSort (mergeLe K)).Pairwise
      (fun a b => mergeLe K a b = true) :=
    List.sorted_mergeSort (fun a b c => mergeLe_trans K a b c)
      (fun a b => mergeLe_total K a b) _
  have htakeSorted : (mergeSections mc K V).Pairwise
      (fun a b => mergeLe K a b = true) := by
    rw [hif]
    exact hsorted.sublist (List.take_sublist _ _)
  refine ⟨?_, ?_, ?_, ?_⟩
  · rw [hif]
    exact List.length_take_le _ _
  · exact htakeSorted.imp (fun h hb => mergeLe_flag K _ _ h hb)
  · exact htakeSorted.imp (fun h heq => mergeLe_sim K _ _ h heq)
  · have hflagged : ∀ x ∈ newS, isKeywordId K x = true := by
      intro x hx
      simp only [isKeywordId, List.any_eq_true]
      exact ⟨x, List.mem_of_mem_filter hx, by simp⟩
    have hpairnew : newS.Pairwise (fun a b => mergeLe K a b = true) := by
      apply List.pairwise_of_forall_mem_list
      intro a ha b hb
      have hsa := hsim a (List.mem_of_mem_filter ha)
      have hsb := hsim b (List.mem_of_mem_filter hb)
      simp [mergeLe, hflagged a ha, hflagged b hb, hsa, hsb]
    have hstable : List.Sublist newS ((newS ++ V).mergeSort (mergeLe K)) :=
      List.sublist_mergeSort (fun a b c => mergeLe_trans K a b c)
        (fun a b => mergeLe_total K a b) hpairnew (List.sublist_append_left _ _)
    have hcnt : ((newS ++ V).mergeSort (mergeLe K)).countP
        (fun s => isKeywordId K s) ≤ mc + 5 := by
      have hp := (List.mergeSort_perm (newS ++ V) (mergeLe K)).countP_eq
        (fun s => isKeywordId K s)
      rw [hp]
      exact le_trans (countP_keyword_le K V hKid hVid) hKlen
    rw [hif]
    exact sublist_take_of_flagged (fun s => isKeywordId K s) (mc + 5) hstable
      hflagged (hsorted.imp (fun h hb => mergeLe_flag K _ _ h hb)) hcnt

/-- Witness for the amended C3 on the concrete lists. -/
theorem mergeOrder_amended_witness :
    (exK.isEmpty = false ∧ exK.length ≤ 20 ∧
        (∀ s ∈ exK, s.similarity = mkRat 85 100)) ∧
      (mergeSections 15 exK exV).length ≤ 20 :=
  ⟨⟨by decide, by decide, by decide⟩,
    (mergeOrder_amended 15 exK exV (by decide) (by decide) (by decide) (by decide)
      (by decide)).1⟩

/-- C4: every keyword-search result carries the fixed synthetic similarity
0.85 regardless of its true vector similarity; at most 10 keyword-matched
passages are returned; and (Scenario B) a passage `X` at or below the 0.70
vector threshold whose content contains a searched keyword verbatim is
absent from the vector results yet its keyword entry — with similarity
0.85 — appears in the final merged results. (`hsmall` says the keyword
matches fit the SQL `LIMIT 10`; the `Nodup` hypotheses say ids are
primary-key-distinct.) -/
theorem keywordAugmenter_synthetic_similarity
    (table : List Row) (keywords : List String) (minLen : Nat) (V : List Sect)
    (X : Row) (kw : String)
    (hXt : X ∈ table)
    (hXlen : contentLenOk X.content minLen = true)
    (hkw : kw ∈ keywords)
    (hhit : optContains X.content kw = true)
    (hsmall : (table.filter
        (fun r => contentLenOk r.content minLen &&
          keywords.any (fun k => keywordHit k r))).length ≤ 10)
    (hKid : ((keywordSearch table minLen keywords).map (fun s => s.id)).Nodup)
    (hVid : (V.map (fun s => s.id)).Nodup)
    (hXV : X.id ∉ V.map (fun s => s.id))
    (hbelow : 1 - X.distance ≤ mkRat 70 100) :
    (∀ s ∈ keywordSearch table minLen keywords, s.similarity = 85 / 100) ∧
      (keywordSearch table minLen keywords).length ≤ 10 ∧
      rowToSect X ∉ vectorSearch table minLen (mkRat 70 100) 15 ∧
      { rowToSect X with similarity := mkRat 85 100 } ∈
        mergeSections 15 (keywordSearch table minLen keywords) V ∧
      ({ rowToSect X with similarity := mkRat 85 100 } : Sect).similarity = 85 / 100 := by
  have hval : (mkRat 85 100 : ℚ) = 85 / 100 := by norm_num
  have hKlen : (keywordSearch table minLen keywords).length ≤ 10 := by
    rw [keywordSearch, List.length_map]
    exact List.length_take_le _ _
  refine ⟨?_, hKlen, ?_, ?_, hval⟩
  · intro s hs
    obtain ⟨r, -, rfl⟩ := List.mem_map.mp hs
    exact hval
  · intro hmem
    obtain ⟨r, hr, heq⟩ := List.mem_map.mp hmem
    have hpred := (List.mem_filter.mp
      ((List.mergeSort_perm _ _).mem_iff.mp (List.mem_of_mem_take hr))).2
    have hsim : (mkRat 70 100 : ℚ) < 1 - r.distance :=
      of_decide_eq_true (Bool.and_eq_true _ _ ▸ hpred).2
    have : (1 : ℚ) - r.distance = 1 - X.distance :=
      congrArg Sect.similarity heq
    rw [this] at hsim
    exact absurd hbelow (not_le.mpr hsim)
  · set K := keywordSearch table minLen keywords with hKdef
    set kwX : Sect := { rowToSect X with similarity := mkRat 85 100 } with hkwX
    have hXfil : X ∈ table.filter
        (fun r => contentLenOk r.content minLen &&
          keywords.any (fun k => keywordHit k r)) := by
      refine List.mem_filter.mpr ⟨hXt, ?_⟩
      rw [Bool.and_eq_true]
      refine ⟨hXlen, List.any_eq_true.mpr ⟨kw, hkw, ?_⟩⟩
      simp [keywordHit, hhit]
    have hXK : kwX ∈ K := by
      rw [hKdef, keywordSearch, List.take_of_length_le hsmall]
      exact List.mem_map_of_mem _ hXfil
    have hKne : K.isEmpty = false := by
      cases hK : K
      · rw [hK] at hXK
        cases hXK
      · rfl
    have hXnewS : kwX ∈ K.filter (fun s => !(V.map (fun v => v.id)).contains s.id) := by
      refine List.mem_filter.mpr ⟨hXK, ?_⟩
      simp only [Bool.not_eq_true']
      have : kwX.id = X.id := rfl
      rw [this]
      simpa using hXV
    have hflagX : isKeywordId K kwX = true := by
      simp only [isKeywordId, List.any_eq_true]
      exact ⟨kwX, hXK, by simp⟩
    have hsorted : (((K.filter (fun s => !(V.map (fun v => v.id)).contains s.id)) ++ V).mergeSort
        (mergeLe K)).Pairwise (fun a b => mergeLe K a b = true) :=
      List.sorted_mergeSort (fun a b c => mergeLe_trans K a b c)
        (fun a b => mergeLe_total K a b) _
    have hstable : List.Sublist [kwX]
        (((K.filter (fun s => !(V.map (fun v => v.id)).contains s.id)) ++ V).mergeSort
          (mergeLe K)) :=
      List.sublist_mergeSort (fun a b c => mergeLe_trans K a b c)
        (fun a b => mergeLe_total K a b) (List.pairwise_singleton _ _)
        (List.singleton_sublist.mpr (List.mem_append_left _ hXnewS))
    have hcnt : (((K.filter (fun s => !(V.map (fun v => v.id)).contains s.id)) ++ V).mergeSort
        (mergeLe K)).countP (fun s => isKeywordId K s) ≤ 15 + 5 := by
      rw [(List.mergeSort_perm _ _).countP_eq (fun s => isKeywordId K s)]
      exact le_trans (countP_keyword_le K V hKid hVid) (le_trans hKlen (by omega))
    have hin := sublist_take_of_flagged (fun s => isKeywordId K s) (15 + 5) hstable
      (by intro x hx; rw [List.mem_singleton.mp hx]; exact hflagX)
      (hsorted.imp (fun h hb => mergeLe_flag K _ _ h hb)) hcnt
    have : kwX ∈ mergeSections 15 K V := by
      rw [show mergeSections 15 K V =
          (((K.filter (fun s => !(V.map (fun v => v.id)).contains s.id)) ++ V).mergeSort
            (mergeLe K)).take (15 + 5) by simp [mergeSections, hKne]]
      exact List.singleton_sublist.mp hin
    exact this

/-- Witness for C4: Scenario B instantiated on `c4Table`, with "must promptly
notify" present verbatim in the passage whose vector similarity is 0.60. -/
theorem keywordAugmenter_synthetic_similarity_witness :
    (contentLenOk c4Row.content 50 = true ∧
        optContains c4Row.content "must promptly notify" = true) ∧
      rowToSect c4Row ∉ vectorSearch c4Table 50 (mkRat 70 100) 15 ∧
      { rowToSect c4Row with similarity := mkRat 85 100 } ∈
        mergeSections 15 (keywordSearch c4Table 50 c4Keywords) exV := by
  have h := keywordAugmenter_synthetic_similarity c4Table c4Keywords 50 exV c4Row
    "must promptly notify" (by decide) (by decide) (by decide) (by decide)
    (by decide) (by decide) (by decide) (by decide) (by norm_num [c4Row])
  exact ⟨⟨by decide, by decide⟩, h.2.2.1, h.2.2.2.1⟩

/-- C8: a flagged moderation result is rejected in its own condition class —
a `UserError` carrying `flagged = true` and the flagged categories, surfaced
as a client-error 400, with no vector-store search performed — while an
`ApplicationError` (here: a non-200 embedding response) is surfaced as the
opaque 500 server error with no user-error data. -/
theorem flagged_moderation_rejection (env : Env) (rd : RequestData)
    (h1 : env.openAiKeySet = true) (h2 : env.dbConfigSet = true)
    (h3 : env.method = "POST") (h4 : env.body = some rd)
    (h5 : strFalsy rd.prompt = false) :
    (env.moderationFlagged (jsTrim (rd.prompt.getD "")) = true →
      (productHandler env).status = 400 ∧
        (productHandler env).errorMsg = some "Flagged content" ∧
        (productHandler env).errorFlagged = some true ∧
        (productHandler env).errorCategories =
          some (env.moderationCategories (jsTrim (rd.prompt.getD ""))) ∧
        (productHandler env).vectorSearchRan = false) ∧
    (env.moderationFlagged (jsTrim (rd.prompt.getD "")) = false →
      env.embeddingStatus (replaceNewlines (jsTrim (rd.prompt.getD ""))) ≠ 200 →
        (productHandler env).status = 500 ∧
          (productHandler env).errorMsg =
            some "There was an error processing your request" ∧
          (productHandler env).errorFlagged = none ∧
          (productHandler env).vectorSearchRan = false) := by
  constructor
  · intro hf
    simp [productHandler, h1, h2, h3, h4, h5, hf, throwOutcome]
  · intro hf he
    simp [productHandler, h1, h2, h3, h4, h5, hf, he, throwOutcome]

/-- Witness for C8 on a concrete flagged environment. -/
theorem flagged_moderation_rejection_witness :
    envFlagged.moderationFlagged (jsTrim "bad query") = true ∧
      (productHandler envFlagged).status = 400 ∧
      (productHandler envFlagged).vectorSearchRan = false := by
  have h := flagged_moderation_rejection envFlagged { prompt := some "bad query" }
    rfl rfl rfl rfl (by decide)
  have hc := h.1 rfl
  exact ⟨rfl, hc.1, hc.2.2.2.2⟩

/-- C9: a vector search returning zero candidates is not an error — the
packing loop yields an empty `contextText` and the request still reaches the
generation step and streams a 200 response. -/
theorem empty_candidates_not_error (env : Env) (rd : RequestData)
    (h1 : env.openAiKeySet = true) (h2 : env.dbConfigSet = true)
    (h3 : env.method = "POST") (h4 : env.body = some rd)
    (h5 : strFalsy rd.prompt = false)
    (h6 : env.moderationFlagged (jsTrim (rd.prompt.getD "")) = false)
    (h7 : env.embeddingStatus (replaceNewlines (jsTrim (rd.prompt.getD ""))) = 200)
    (h8 : env.generationOk = true)
    (h9 : vectorSearch env.table 50 (mkRat 78 100) 10 = []) :
    (productHandler env).status = 200 ∧
      (productHandler env).contextText = some "" ∧
      (productHandler env).generationRan = true := by
  simp [productHandler, h1, h2, h3, h4, h5, h6, h7, h8, h9, packContext, packLoop]

/-- Witness for C9 on a concrete environment with an empty sections table. -/
theorem empty_candidates_not_error_witness :
    vectorSearch envEmpty.table 50 (mkRat 78 100) 10 = [] ∧
      (productHandler envEmpty).status = 200 ∧
      (productHandler envEmpty).contextText = some "" := by
  have hv : vectorSearch envEmpty.table 50 (mkRat 78 100) 10 = [] := by
    simp [vectorSearch, envEmpty, List.mergeSort]
  have h := empty_candidates_not_error envEmpty { prompt := some "anything" }
    rfl rfl rfl rfl (by decide) rfl rfl rfl hv
  exact ⟨hv, h.1, h.2.1⟩

/-- C10: a query of only whitespace characters is truthy, so it is not
rejected by the missing-query `UserError`; it is trimmed to the empty string
and that empty string is what reaches the moderation call and (after newline
replacement) the embedding call. -/
theorem whitespace_query_not_rejected (env : Env) (rd : RequestData) (w : String)
    (h1 : env.openAiKeySet = true) (h2 : env.dbConfigSet = true)
    (h3 : env.method = "POST") (h4 : env.body = some rd)
    (hq : rd.prompt = some w) (hw : w ≠ "") (ht : jsTrim w = "") :
    (productHandler env).moderationInput = some "" ∧
      (productHandler env).embeddingInput = some "" ∧
      (productHandler env).errorMsg ≠ some "Missing query in request data" := by
  have h5 : strFalsy (some w) = false := by
    simp [strFalsy, hw]
  have hrn : replaceNewlines "" = "" := rfl
  by_cases hf : env.moderationFlagged "" = true
  · simp [productHandler, h1, h2, h3, h4, h5, hq, ht, hrn, hf, throwOutcome]
  · by_cases he : env.embeddingStatus "" = 200
    · by_cases hg : env.generationOk = true
      · simp [productHandler, h1, h2, h3, h4, h5, hq, ht, hrn, hf, he, hg, throwOutcome]
      · simp [productHandler, h1, h2, h3, h4, h5, hq, ht, hrn, hf, he, hg, throwOutcome]
    · simp [productHandler, h1, h2, h3, h4, h5, hq, ht, hrn, hf, he, throwOutcome]

/-- Witness for C10 on the three-space query. -/
theorem whitespace_query_not_rejected_witness :
    ("   " : String) ≠ "" ∧ jsTrim "   " = "" ∧
      (productHandler envWhitespace).moderationInput = some "" ∧
      (productHandler envWhitespace).embeddingInput = some "" := by
  have h := whitespace_query_not_rejected envWhitespace { prompt := some "   " } "   "
    rfl rfl rfl rfl rfl (by decide) (by decide)
  exact ⟨by decide, by decide, h.1, h.2.1⟩

end SalesAssistant
